import Mathlib

/-!
Shallow embedding of the `websocket_petals_api` crate (src/lib.rs): a
websocket client for the Petals inference API.  Pure data (requests,
parameters, the builder) is translated directly; the websocket transport
(tokio-tungstenite) and the JSON text codec (serde_json parsing) are the
external collaborators, modelled at their interfaces: a text frame is
represented by the result of parsing its content, and transport
connect/send/read outcomes are explicit inputs.  serde_json serialization
of the derived `Serialize` impls is modelled structurally: a struct
serializes to an object listing every field in declaration order, a `None`
option serializes to JSON `null` (the crate uses no `skip_serializing_if`
attribute), and the compact formatter writes non-finite floats as `null`.
-/

namespace WebsocketPetals

/-- The closed set of supported models (`enum Model` in src/lib.rs). -/
inductive Model where
  | llama2_70bChatHf
  | stableBeluga2
  | guanaco65b
  | llama65bHf
  | bloomz
deriving DecidableEq

/-- The serde rename of each variant: its canonical wire string. -/
def Model.wire : Model → String
  | .llama2_70bChatHf => "meta-llama/Llama-2-70b-chat-hf"
  | .stableBeluga2 => "stabilityai/StableBeluga2"
  | .guanaco65b => "timdettmers/guanaco-65b"
  | .llama65bHf => "enoch/llama-65b-hf"
  | .bloomz => "bigscience/bloomz"

/-- Deserialization of a model wire string (serde enum decode over the
closed set of renames). -/
def Model.fromWire (s : String) : Option Model :=
  if s = "meta-llama/Llama-2-70b-chat-hf" then some .llama2_70bChatHf
  else if s = "stabilityai/StableBeluga2" then some .stableBeluga2
  else if s = "timdettmers/guanaco-65b" then some .guanaco65b
  else if s = "enoch/llama-65b-hf" then some .llama65bHf
  else if s = "bigscience/bloomz" then some .bloomz
  else none

/-- An `f32` value, abstracted: finite values are carried as rationals
(the exact decimal rendering of finite floats is outside every claim),
and the three non-finite shapes are explicit because serde_json treats
them specially. -/
inductive F32 where
  | finite (q : Rat)
  | nan
  | inf
  | negInf
deriving DecidableEq

/-- Whether an `F32` is finite. -/
def F32.isFiniteB : F32 → Bool
  | .finite _ => true
  | _ => false

/-- A primitive JSON value as serde_json's serializer emits it for the
field types of this crate.  `f32` is kept distinct from `num` because the
serializer decides only at write time (in `write_f32`) how a float is
rendered: finite floats become numbers and non-finite floats become
`null`; a parsed JSON text never contains an `f32`. -/
inductive JVal where
  | null
  | bool (b : Bool)
  | num (q : Rat)
  | str (s : String)
  | f32 (v : F32)
deriving DecidableEq

/-- A JSON object as a key/value list in serialization order. -/
abbrev JObj := List (String × JVal)

/-- A parsed JSON document (`serde_json::Value`), restricted to the flat
shapes this protocol exchanges: a primitive or a one-level object. -/
inductive Json where
  | prim (v : JVal)
  | obj (fields : JObj)
deriving DecidableEq

/-- `serde_json::Value::get(key)`: field lookup on an object, `none` on
any non-object. -/
def Json.get : Json → String → Option JVal
  | .prim _, _ => none
  | .obj fs, k => fs.lookup k

/-- `serde_json::Value == &str` (the `PartialEq<str>` impl): true exactly
when the value is a JSON string equal to the given text; any non-string
value compares unequal. -/
def valueEqStr (v : JVal) (s : String) : Bool :=
  match v with
  | .str t => t == s
  | _ => false

/-- One hexadecimal digit. -/
def hexDigit (n : Nat) : Char :=
  if n < 10 then Char.ofNat (48 + n) else Char.ofNat (87 + n)

/-- serde_json's escaping of one character inside a JSON string. -/
def escapeChar (c : Char) : String :=
  if c = '"' then "\\\""
  else if c = '\\' then "\\\\"
  else if c = Char.ofNat 8 then "\\b"
  else if c = Char.ofNat 9 then "\\t"
  else if c = Char.ofNat 10 then "\\n"
  else if c = Char.ofNat 12 then "\\f"
  else if c = Char.ofNat 13 then "\\r"
  else if c.toNat < 32 then "\\u00" ++ String.mk [hexDigit (c.toNat / 16), hexDigit (c.toNat % 16)]
  else String.singleton c

/-- A JSON string literal with its quotes and escapes. -/
def quoteString (s : String) : String :=
  "\"" ++ String.join (s.toList.map escapeChar) ++ "\""

/-- Rendering of a JSON number.  Finite floats are dyadic rationals and
really render by ryu shortest-digits; no claim depends on that text, so a
placeholder rendering is used for non-integers. -/
def renderNum (q : Rat) : String :=
  if q.den = 1 then toString q.num else toString q

/-- The text serde_json's compact formatter writes for one value.
Non-finite floats are written as `null` (`write_f32` on a non-finite
value), not rejected. -/
def jvalText : JVal → String
  | .null => "null"
  | .bool true => "true"
  | .bool false => "false"
  | .num q => renderNum q
  | .str s => quoteString s
  | .f32 (.finite q) => renderNum q
  | .f32 .nan => "null"
  | .f32 .inf => "null"
  | .f32 .negInf => "null"

/-- `serde_json::Value::to_string()` on a primitive value (used by the
code on the extracted `traceback` value): its JSON rendering, so a string
keeps its quotes. -/
def JVal.render (v : JVal) : String := jvalText v

/-- The fallible write of one value inside `serde_json::to_string`
(`Result`-typed in serde); for every shape this crate serializes the
write succeeds, non-finite floats included. -/
def writeJVal : JVal → Except String String
  | .null => .ok "null"
  | .bool true => .ok "true"
  | .bool false => .ok "false"
  | .num q => .ok (renderNum q)
  | .str s => .ok (quoteString s)
  | .f32 (.finite q) => .ok (renderNum q)
  | .f32 .nan => .ok "null"
  | .f32 .inf => .ok "null"
  | .f32 .negInf => .ok "null"

/-- Writes every `"key":value` part of an object, left to right, stopping
at the first failing value write. -/
def writeParts : JObj → Except String (List String)
  | [] => .ok []
  | (k, v) :: rest =>
    match writeJVal v with
    | .error e => .error e
    | .ok s =>
      match writeParts rest with
      | .error e => .error e
      | .ok tl => .ok ((quoteString k ++ ":" ++ s) :: tl)

/-- `serde_json::to_string` on a struct serialized as a flat object. -/
def writeJObj (o : JObj) : Except String String :=
  match writeParts o with
  | .error e => .error e
  | .ok parts => .ok ("\x7b" ++ String.intercalate "," parts ++ "\x7d")

/-- The text `writeJObj` produces when it succeeds. -/
def jobjText (o : JObj) : String :=
  "\x7b" ++ String.intercalate "," (o.map (fun kv => quoteString kv.1 ++ ":" ++ jvalText kv.2)) ++ "\x7d"

theorem writeJVal_ok (v : JVal) : writeJVal v = .ok (jvalText v) := by
  cases v with
  | bool b => cases b <;> rfl
  | f32 x => cases x <;> rfl
  | _ => rfl

theorem writeParts_ok (o : JObj) :
    writeParts o = .ok (o.map (fun kv => quoteString kv.1 ++ ":" ++ jvalText kv.2)) := by
  induction o with
  | nil => rfl
  | cons kv rest ih => simp [writeParts, writeJVal_ok, ih]

theorem writeJObj_ok (o : JObj) : writeJObj o = .ok (jobjText o) := by
  simp [writeJObj, writeParts_ok, jobjText]

/-- The `type` discriminant (`enum RequestType` in src/lib.rs). -/
inductive RequestType where
  | generate
  | openInferenceSession
deriving DecidableEq

/-- The serde rename of each request type. -/
def RequestType.wire : RequestType → String
  | .generate => "generate"
  | .openInferenceSession => "open_inference_session"

/-- Deserialization of a request-type wire string. -/
def RequestType.fromWire (s : String) : Option RequestType :=
  if s = "generate" then some .generate
  else if s = "open_inference_session" then some .openInferenceSession
  else none

/-- `struct OpenSessionRequest` (src/lib.rs lines 24-30), field order as
declared: `type`, `max_length`, `model`.  `max_length` is a `u32`. -/
structure OpenSessionRequest where
  request_type : RequestType
  max_length : Nat
  model : Option Model
deriving DecidableEq

/-- `struct GenerateRequest` (src/lib.rs lines 32-45), field order as
declared. -/
structure GenerateRequest where
  request_type : RequestType
  model : Option Model
  max_length : Option Nat
  inputs : Option String
  stop_sequence : Option String
  do_sample : Option Bool
  temperature : Option F32
  top_k : Option Nat
  top_p : Option F32
  max_new_tokens : Option Nat
deriving DecidableEq

/-- serde serialization of an `Option<Model>` field: `None` becomes
`null`, `Some` the wire string. -/
def jOfOptModel : Option Model → JVal
  | none => .null
  | some m => .str m.wire

/-- serde serialization of an `Option<u32>` field. -/
def jOfOptNat : Option Nat → JVal
  | none => .null
  | some n => .num (n : Rat)

/-- serde serialization of an `Option<String>` field. -/
def jOfOptStr : Option String → JVal
  | none => .null
  | some s => .str s

/-- serde serialization of an `Option<bool>` field. -/
def jOfOptBool : Option Bool → JVal
  | none => .null
  | some b => .bool b

/-- serde serialization of an `Option<f32>` field. -/
def jOfOptF32 : Option F32 → JVal
  | none => .null
  | some v => .f32 v

/-- The object the derived `Serialize` impl emits for an
`OpenSessionRequest`: every field, in declaration order, `None` as
`null`. -/
def serializeOpenSessionRequest (r : OpenSessionRequest) : JObj :=
  [("type", .str r.request_type.wire),
   ("max_length", .num (r.max_length : Rat)),
   ("model", jOfOptModel r.model)]

/-- The object the derived `Serialize` impl emits for a
`GenerateRequest`: every field, in declaration order, `None` as `null`. -/
def serializeGenerateRequest (r : GenerateRequest) : JObj :=
  [("type", .str r.request_type.wire),
   ("model", jOfOptModel r.model),
   ("max_length", jOfOptNat r.max_length),
   ("inputs", jOfOptStr r.inputs),
   ("stop_sequence", jOfOptStr r.stop_sequence),
   ("do_sample", jOfOptBool r.do_sample),
   ("temperature", jOfOptF32 r.temperature),
   ("top_k", jOfOptNat r.top_k),
   ("top_p", jOfOptF32 r.top_p),
   ("max_new_tokens", jOfOptNat r.max_new_tokens)]

/-- What a value of the serializer's output looks like after the round
trip through JSON text: a finite float was written as a number, a
non-finite float as `null`; every other value reads back as itself. -/
def JVal.onWire : JVal → JVal
  | .f32 (.finite q) => .num q
  | .f32 .nan => .null
  | .f32 .inf => .null
  | .f32 .negInf => .null
  | v => v

/-- `JVal.onWire` applied to every value of an object. -/
def JObj.onWire (o : JObj) : JObj := o.map (fun kv => (kv.1, kv.2.onWire))

/-- serde decode of a `u32` field wrapped in `Option`: a missing key or a
`null` is `None`; a number must be a non-negative integer below `2^32`;
anything else is a type error. -/
def decodeOptNat : Option JVal → Except String (Option Nat)
  | none => .ok none
  | some .null => .ok none
  | some (.num q) =>
    if q.den = 1 ∧ 0 ≤ q.num ∧ q.num < 4294967296 then .ok (some q.num.toNat)
    else .error "invalid value for u32"
  | some _ => .error "invalid type, expected u32"

/-- serde decode of an `Option<String>` field. -/
def decodeOptStr : Option JVal → Except String (Option String)
  | none => .ok none
  | some .null => .ok none
  | some (.str s) => .ok (some s)
  | some _ => .error "invalid type, expected string"

/-- serde decode of an `Option<bool>` field. -/
def decodeOptBool : Option JVal → Except String (Option Bool)
  | none => .ok none
  | some .null => .ok none
  | some (.bool b) => .ok (some b)
  | some _ => .error "invalid type, expected bool"

/-- serde decode of an `Option<f32>` field: any JSON number reads as a
finite float. -/
def decodeOptF32 : Option JVal → Except String (Option F32)
  | none => .ok none
  | some .null => .ok none
  | some (.num q) => .ok (some (.finite q))
  | some _ => .error "invalid type, expected f32"

/-- serde decode of an `Option<Model>` field over the closed rename
set. -/
def decodeOptModel : Option JVal → Except String (Option Model)
  | none => .ok none
  | some .null => .ok none
  | some (.str s) =>
    match Model.fromWire s with
    | some m => .ok (some m)
    | none => .error "unknown model variant"
  | some _ => .error "invalid type, expected model string"

/-- serde decode of the required `type` field. -/
def decodeReqType : Option JVal → Except String RequestType
  | none => .error "missing field type"
  | some (.str s) =>
    match RequestType.fromWire s with
    | some t => .ok t
    | none => .error "unknown request type"
  | some _ => .error "invalid type for field type"

/-- The derived `Deserialize` impl for `GenerateRequest` over a parsed
JSON object: duplicate keys are an error, unknown keys are ignored, a
missing `Option` field defaults to `None`, and the `type` field is
required. -/
def decodeGenerateRequest (o : JObj) : Except String GenerateRequest :=
  if (o.map Prod.fst).Nodup then
    match decodeReqType (o.lookup "type") with
    | .error e => .error e
    | .ok rt =>
      match decodeOptModel (o.lookup "model") with
      | .error e => .error e
      | .ok model =>
        match decodeOptNat (o.lookup "max_length") with
        | .error e => .error e
        | .ok maxLength =>
          match decodeOptStr (o.lookup "inputs") with
          | .error e => .error e
          | .ok inputs =>
            match decodeOptStr (o.lookup "stop_sequence") with
            | .error e => .error e
            | .ok stopSeq =>
              match decodeOptBool (o.lookup "do_sample") with
              | .error e => .error e
              | .ok doSample =>
                match decodeOptF32 (o.lookup "temperature") with
                | .error e => .error e
                | .ok temp =>
                  match decodeOptNat (o.lookup "top_k") with
                  | .error e => .error e
                  | .ok topK =>
                    match decodeOptF32 (o.lookup "top_p") with
                    | .error e => .error e
                    | .ok topP =>
                      match decodeOptNat (o.lookup "max_new_tokens") with
                      | .error e => .error e
                      | .ok maxNew =>
                        .ok ⟨rt, model, maxLength, inputs, stopSeq, doSample, temp, topK, topP, maxNew⟩
  else .error "duplicate field"

/-- `struct GenerateParams` (src/lib.rs lines 121-132), field order as
declared. -/
structure GenerateParams where
  model : Option Model
  inputs : Option String
  do_sample : Option Bool
  temperature : Option F32
  top_k : Option Nat
  top_p : Option F32
  max_length : Option Nat
  max_new_tokens : Option Nat
  stop_sequence : Option String
deriving DecidableEq

/-- `struct GenerateParamsBuilder(GenerateParams)` (src/lib.rs line
134). -/
structure GenerateParamsBuilder where
  params : GenerateParams
deriving DecidableEq

/-- `GenerateParamsBuilder::new()`: every field starts unset. -/
def GenerateParamsBuilder.new : GenerateParamsBuilder :=
  ⟨⟨none, none, none, none, none, none, none, none, none⟩⟩

/-- Setter `model`. -/
def GenerateParamsBuilder.model (b : GenerateParamsBuilder) (m : Model) : GenerateParamsBuilder :=
  ⟨{ b.params with model := some m }⟩

/-- Setter `inputs`. -/
def GenerateParamsBuilder.inputs (b : GenerateParamsBuilder) (s : String) : GenerateParamsBuilder :=
  ⟨{ b.params with inputs := some s }⟩

/-- Setter `do_sample`. -/
def GenerateParamsBuilder.do_sample (b : GenerateParamsBuilder) (x : Bool) : GenerateParamsBuilder :=
  ⟨{ b.params with do_sample := some x }⟩

/-- Setter `temperature`. -/
def GenerateParamsBuilder.temperature (b : GenerateParamsBuilder) (t : F32) : GenerateParamsBuilder :=
  ⟨{ b.params with temperature := some t }⟩

/-- Setter `top_k`. -/
def GenerateParamsBuilder.top_k (b : GenerateParamsBuilder) (k : Nat) : GenerateParamsBuilder :=
  ⟨{ b.params with top_k := some k }⟩

/-- Setter `top_p`. -/
def GenerateParamsBuilder.top_p (b : GenerateParamsBuilder) (p : F32) : GenerateParamsBuilder :=
  ⟨{ b.params with top_p := some p }⟩

/-- Setter `max_length`. -/
def GenerateParamsBuilder.max_length (b : GenerateParamsBuilder) (n : Nat) : GenerateParamsBuilder :=
  ⟨{ b.params with max_length := some n }⟩

/-- Setter `max_new_tokens`. -/
def GenerateParamsBuilder.max_new_tokens (b : GenerateParamsBuilder) (n : Nat) : GenerateParamsBuilder :=
  ⟨{ b.params with max_new_tokens := some n }⟩

/-- Setter `stop_sequence`. -/
def GenerateParamsBuilder.stop_sequence (b : GenerateParamsBuilder) (s : String) : GenerateParamsBuilder :=
  ⟨{ b.params with stop_sequence := some s }⟩

/-- `GenerateParamsBuilder::build()` (src/lib.rs lines 196-202): `None`
when neither `max_length` nor `max_new_tokens` was set, otherwise the
accumulated params unchanged. -/
def GenerateParamsBuilder.build (b : GenerateParamsBuilder) : Option GenerateParams :=
  if b.params.max_length.isNone && b.params.max_new_tokens.isNone then none
  else some b.params

/-- One call to one of the nine fluent setters, with its argument. -/
inductive SetterCall where
  | model (m : Model)
  | inputs (s : String)
  | do_sample (x : Bool)
  | temperature (t : F32)
  | top_k (k : Nat)
  | top_p (p : F32)
  | max_length (n : Nat)
  | max_new_tokens (n : Nat)
  | stop_sequence (s : String)
deriving DecidableEq

/-- Applies one setter call to a builder. -/
def applyCall (b : GenerateParamsBuilder) : SetterCall → GenerateParamsBuilder
  | .model m => b.model m
  | .inputs s => b.inputs s
  | .do_sample x => b.do_sample x
  | .temperature t => b.temperature t
  | .top_k k => b.top_k k
  | .top_p p => b.top_p p
  | .max_length n => b.max_length n
  | .max_new_tokens n => b.max_new_tokens n
  | .stop_sequence s => b.stop_sequence s

/-- A whole fluent chain: `GenerateParamsBuilder::new()` followed by the
given setter calls in order. -/
def applyCalls (calls : List SetterCall) : GenerateParamsBuilder :=
  calls.foldl applyCall GenerateParamsBuilder.new

/-- Whether a setter call sets `max_length` or `max_new_tokens`. -/
def setsLength : SetterCall → Bool
  | .max_length _ => true
  | .max_new_tokens _ => true
  | _ => false

/-- The `GenerateRequest` the `generate` method builds from its params
(src/lib.rs lines 103-114). -/
def generateRequestOfParams (p : GenerateParams) : GenerateRequest :=
  ⟨.generate, p.model, p.max_length, p.inputs, p.stop_sequence, p.do_sample,
   p.temperature, p.top_k, p.top_p, p.max_new_tokens⟩

/-- A tungstenite transport error, abstracted to its message; the code
only ever wraps it unchanged. -/
structure TungsteniteError where
  msg : String
deriving DecidableEq

/-- One inbound websocket frame.  The JSON text codec is the external
collaborator, so a text frame is represented by the result of parsing its
content (`none` when the text is not valid JSON); `invalidUtf8` is a
non-text frame whose bytes `to_text` cannot decode. -/
inductive Frame where
  | text (parsed : Option Json)
  | invalidUtf8
deriving DecidableEq

/-- `Message::to_text()`: the parse-level content of a text frame, or
failure on undecodable bytes. -/
def Frame.toText : Frame → Option (Option Json)
  | .text p => some p
  | .invalidUtf8 => none

/-- One item the stream's `next()` can yield: a frame, or a transport
read error.  An empty pending list models a closed stream, where `next()`
yields `None`. -/
inductive InboundItem where
  | frame (f : Frame)
  | readError (e : TungsteniteError)
deriving DecidableEq

/-- The state of a connected websocket stream: the text frames written so
far, in order, and the pending inbound items. -/
structure WsState where
  sent : List String
  inbound : List InboundItem
deriving DecidableEq

/-- The observable result of `InferenceSession::open`: the session state
on success, the two `OpenInferenceSessionError` variants, or a process
panic from one of the `unwrap` calls. -/
inductive OpenResult where
  | opened (session : WsState)
  | transportError (e : TungsteniteError)
  | apiError (traceback : String)
  | panicked (reason : String)
deriving DecidableEq

/-- Whether an `OpenResult` is a successful open. -/
def OpenResult.isOpened : OpenResult → Bool
  | .opened _ => true
  | _ => false

/-- Whether an `OpenResult` is a process panic. -/
def OpenResult.isPanicked : OpenResult → Bool
  | .panicked _ => true
  | _ => false

/-- `InferenceSession::open` (src/lib.rs lines 73-100) over explicit
transport outcomes: `connectRes` is what `connect_async` yields and
`sendRes` what sending the open frame yields.  The body follows the
source line by line: connect errors and send errors are mapped to
`TungsteniteError`; the handshake read, `to_text`, `from_str`,
`get("ok")` and `get("traceback")` are all unwrapped, so each failure
there is a panic; the error branch fires when the `ok` value compares
equal to the string `"false"` under `Value`'s `PartialEq<str>`, and the
traceback is `Value::to_string()` of the `traceback` value. -/
def openSession (maxLength : Nat) (model : Option Model)
    (connectRes : Except TungsteniteError WsState)
    (sendRes : Except TungsteniteError Unit) : OpenResult :=
  match connectRes with
  | .error e => .transportError e
  | .ok ws =>
    match writeJObj (serializeOpenSessionRequest ⟨.openInferenceSession, maxLength, model⟩) with
    | .error m => .panicked m
    | .ok frameStr =>
      match sendRes with
      | .error e => .transportError e
      | .ok _ =>
        match ws.inbound with
        | [] => .panicked "unwrap of None: handshake stream yielded no frame"
        | .readError _ :: _ => .panicked "unwrap of Err: handshake read failed at the transport"
        | .frame f :: rest =>
          match f.toText with
          | none => .panicked "unwrap of Err: to_text failed"
          | some none => .panicked "unwrap of Err: acknowledgment is not valid JSON"
          | some (some response) =>
            match response.get "ok" with
            | none => .panicked "unwrap of None: acknowledgment has no ok field"
            | some okVal =>
              if valueEqStr okVal "false" then
                match response.get "traceback" with
                | none => .panicked "unwrap of None: acknowledgment has no traceback field"
                | some tb => .apiError tb.render
              else
                .opened ⟨ws.sent ++ [frameStr], rest⟩

/-- The observable result of `InferenceSession::generate`. -/
inductive GenOutcome where
  | sentOk
  | sendFailed (e : TungsteniteError)
  | panicked (reason : String)
deriving DecidableEq

/-- Whether a `GenOutcome` is a process panic. -/
def GenOutcome.isPanicked : GenOutcome → Bool
  | .panicked _ => true
  | _ => false

/-- `InferenceSession::generate` (src/lib.rs lines 102-118): builds the
`GenerateRequest` from the params, serializes it (the `unwrap` is a panic
if serialization could fail), sends the single text frame, and returns —
it never touches the inbound side. -/
def generate (ws : WsState) (sendRes : Except TungsteniteError Unit)
    (p : GenerateParams) : GenOutcome × WsState :=
  match writeJObj (serializeGenerateRequest (generateRequestOfParams p)) with
  | .error m => (.panicked m, ws)
  | .ok frameStr =>
    match sendRes with
    | .error e => (.sendFailed e, ws)
    | .ok _ => (.sentOk, ⟨ws.sent ++ [frameStr], ws.inbound⟩)

/-- `generate` run on the session an `OpenResult` carries, when it
carries one: the outcome of a generate call made after `open`. -/
def generateAfter (r : OpenResult) (sendRes : Except TungsteniteError Unit)
    (p : GenerateParams) : Option GenOutcome :=
  match r with
  | .opened ws => some (generate ws sendRes p).1
  | _ => none

/-- The value a field holds after a sequence of writes starting from
`init`: the last write when there is one, else `init`. -/
def lastWins (init : Option α) (writes : List α) : Option α :=
  writes.foldl (fun _ w => some w) init

/-- The `model` argument of a setter call, when it is the `model`
setter. -/
def argModel : SetterCall → Option Model
  | .model m => some m
  | _ => none

/-- The `inputs` argument of a setter call. -/
def argInputs : SetterCall → Option String
  | .inputs s => some s
  | _ => none

/-- The `do_sample` argument of a setter call. -/
def argDoSample : SetterCall → Option Bool
  | .do_sample x => some x
  | _ => none

/-- The `temperature` argument of a setter call. -/
def argTemperature : SetterCall → Option F32
  | .temperature t => some t
  | _ => none

/-- The `top_k` argument of a setter call. -/
def argTopK : SetterCall → Option Nat
  | .top_k k => some k
  | _ => none

/-- The `top_p` argument of a setter call. -/
def argTopP : SetterCall → Option F32
  | .top_p p => some p
  | _ => none

/-- The `max_length` argument of a setter call. -/
def argMaxLength : SetterCall → Option Nat
  | .max_length n => some n
  | _ => none

/-- The `max_new_tokens` argument of a setter call. -/
def argMaxNewTokens : SetterCall → Option Nat
  | .max_new_tokens n => some n
  | _ => none

/-- The `stop_sequence` argument of a setter call. -/
def argStopSequence : SetterCall → Option String
  | .stop_sequence s => some s
  | _ => none

theorem lastWins_nil (init : Option α) : lastWins init [] = init := rfl

theorem lastWins_cons (init : Option α) (w : α) (ws : List α) :
    lastWins init (w :: ws) = lastWins (some w) ws := rfl

theorem lastWins_some_isSome (w : α) (ws : List α) :
    (lastWins (some w) ws).isSome = true := by
  induction ws generalizing w with
  | nil => rfl
  | cons x xs ih => rw [lastWins_cons]; exact ih x

theorem lastWins_none_eq_none_iff (ws : List α) :
    lastWins (none : Option α) ws = none ↔ ws = [] := by
  cases ws with
  | nil => simp [lastWins_nil]
  | cons x xs =>
    rw [lastWins_cons]
    constructor
    · intro h
      have := lastWins_some_isSome x xs
      rw [h] at this
      simp at this
    · intro h
      simp at h

/-- Each field of the builder after a chain of setter calls is the last
value written to it, independent of the other calls. -/
theorem foldl_applyCall_params (calls : List SetterCall) :
    ∀ b : GenerateParamsBuilder,
      (calls.foldl applyCall b).params =
        { model := lastWins b.params.model (calls.filterMap argModel)
          inputs := lastWins b.params.inputs (calls.filterMap argInputs)
          do_sample := lastWins b.params.do_sample (calls.filterMap argDoSample)
          temperature := lastWins b.params.temperature (calls.filterMap argTemperature)
          top_k := lastWins b.params.top_k (calls.filterMap argTopK)
          top_p := lastWins b.params.top_p (calls.filterMap argTopP)
          max_length := lastWins b.params.max_length (calls.filterMap argMaxLength)
          max_new_tokens := lastWins b.params.max_new_tokens (calls.filterMap argMaxNewTokens)
          stop_sequence := lastWins b.params.stop_sequence (calls.filterMap argStopSequence) } := by
  induction calls with
  | nil => intro b; simp [lastWins_nil]
  | cons c cs ih =>
    intro b
    rw [List.foldl_cons, ih (applyCall b c)]
    cases c <;>
      simp [applyCall, List.filterMap_cons, argModel, argInputs, argDoSample,
        argTemperature, argTopK, argTopP, argMaxLength, argMaxNewTokens,
        argStopSequence, lastWins_cons, GenerateParamsBuilder.model,
        GenerateParamsBuilder.inputs, GenerateParamsBuilder.do_sample,
        GenerateParamsBuilder.temperature, GenerateParamsBuilder.top_k,
        GenerateParamsBuilder.top_p, GenerateParamsBuilder.max_length,
        GenerateParamsBuilder.max_new_tokens, GenerateParamsBuilder.stop_sequence]

/-- The parameter record a chain of setter calls accumulates: each field
is the last value written to it. -/
def accumulated (calls : List SetterCall) : GenerateParams :=
  { model := lastWins none (calls.filterMap argModel)
    inputs := lastWins none (calls.filterMap argInputs)
    do_sample := lastWins none (calls.filterMap argDoSample)
    temperature := lastWins none (calls.filterMap argTemperature)
    top_k := lastWins none (calls.filterMap argTopK)
    top_p := lastWins none (calls.filterMap argTopP)
    max_length := lastWins none (calls.filterMap argMaxLength)
    max_new_tokens := lastWins none (calls.filterMap argMaxNewTokens)
    stop_sequence := lastWins none (calls.filterMap argStopSequence) }

theorem applyCalls_params (calls : List SetterCall) :
    (applyCalls calls).params = accumulated calls := by
  rw [applyCalls, foldl_applyCall_params calls GenerateParamsBuilder.new]
  rfl

theorem setsLength_iff_arg (c : SetterCall) :
    setsLength c = true ↔ (argMaxLength c ≠ none ∨ argMaxNewTokens c ≠ none) := by
  cases c <;> simp [setsLength, argMaxLength, argMaxNewTokens]

theorem length_unset_iff (calls : List SetterCall) :
    ((accumulated calls).max_length = none ∧ (accumulated calls).max_new_tokens = none)
      ↔ ∀ c ∈ calls, setsLength c = false := by
  simp only [accumulated, lastWins_none_eq_none_iff, List.filterMap_eq_nil_iff]
  constructor
  · rintro ⟨hL, hN⟩ c hc
    cases hcs : setsLength c
    · rfl
    · rcases (setsLength_iff_arg c).mp hcs with h | h
      · exact absurd (hL c hc) h
      · exact absurd (hN c hc) h
  · intro h
    constructor
    · intro c hc
      by_contra hne
      have := (setsLength_iff_arg c).mpr (Or.inl hne)
      rw [h c hc] at this
      exact Bool.false_ne_true this
    · intro c hc
      by_contra hne
      have := (setsLength_iff_arg c).mpr (Or.inr hne)
      rw [h c hc] at this
      exact Bool.false_ne_true this

/-- Claim C4: `GenerateParamsBuilder::build` returns a parameter object
if and only if at least one of `max_length` or `max_new_tokens` was set
by some setter call in the chain; when neither was set it returns `None`
(no exception, no partial object). -/
theorem build_some_iff_length_set (calls : List SetterCall) :
    ((applyCalls calls).build).isSome = true ↔ ∃ c ∈ calls, setsLength c = true := by
  rw [GenerateParamsBuilder.build, applyCalls_params]
  by_cases h : (accumulated calls).max_length = none ∧ (accumulated calls).max_new_tokens = none
  · rw [if_pos (by simp [h.1, h.2])]
    simp only [Option.isSome_none, Bool.false_eq_true, false_iff]
    rintro ⟨c, hc, hs⟩
    have := (length_unset_iff calls).mp h c hc
    rw [hs] at this
    exact Bool.false_ne_true this.symm
  · rw [if_neg (by
      intro hb
      rw [Bool.and_eq_true, Option.isNone_iff_eq_none, Option.isNone_iff_eq_none] at hb
      exact h hb)]
    simp only [Option.isSome_some, true_iff]
    by_contra hno
    push_neg at hno
    refine h ((length_unset_iff calls).mpr ?_)
    intro c hc
    have := hno c hc
    cases hcs : setsLength c
    · rfl
    · exact absurd hcs this

/-- Claim C5: when at least one of `max_length` or `max_new_tokens` was
set, `build` returns the accumulated parameter object in which every
field holds exactly the last value passed to its setter (last-write-wins
per field, each field independent of the other setters), and fields
never written stay `None`. -/
theorem build_last_write_wins (calls : List SetterCall)
    (h : ∃ c ∈ calls, setsLength c = true) :
    (applyCalls calls).build = some (accumulated calls) := by
  rw [GenerateParamsBuilder.build, applyCalls_params]
  rw [if_neg]
  intro hb
  rw [Bool.and_eq_true, Option.isNone_iff_eq_none, Option.isNone_iff_eq_none] at hb
  obtain ⟨c, hc, hs⟩ := h
  have := (length_unset_iff calls).mp hb c hc
  rw [hs] at this
  exact Bool.false_ne_true this.symm

/-- Witness for claim C5: a concrete chain in which `max_length` is
written twice and another field once; the built object keeps the last
`max_length` write and the single `inputs` write. -/
theorem build_last_write_wins_witness :
    (applyCalls [.max_length 10, .inputs "hi", .max_length 20]).build =
      some ⟨none, some "hi", none, none, none, none, some 20, none, none⟩ := by
  rw [build_last_write_wins [.max_length 10, .inputs "hi", .max_length 20]
    ⟨.max_length 10, by simp, rfl⟩]
  rfl

/-- Claim C1, behavior of the code at the failing input: on the
acknowledgment `\x7b"ok": false, "traceback": "boom"\x7d` the check
`response.get("ok").unwrap() == "false"` compares a JSON boolean with a
string, which is always false, so `open` returns `Ok` and never builds
the `ApiError("boom")` the claim requires. -/
theorem open_succeeds_on_boolean_false_ack :
    (openSession 100 none
      (.ok ⟨[], [.frame (.text (some (.obj [("ok", .bool false), ("traceback", .str "boom")])))]⟩)
      (.ok ())).isOpened = true := by
  rfl

/-- Claim C3, behavior of the code at each transport-failure stage: a
connect failure and a send failure are wrapped as `TungsteniteError`
exactly as the claim says, but a transport failure at the single
handshake read is met by `.unwrap()` and panics the process instead of
returning the `TransportError`. -/
theorem open_transport_failure_stages :
    (openSession 100 none (.error ⟨"connection refused"⟩) (.ok ()) =
      .transportError ⟨"connection refused"⟩)
    ∧ (openSession 100 none (.ok ⟨[], []⟩) (.error ⟨"connection reset during send"⟩) =
      .transportError ⟨"connection reset during send"⟩)
    ∧ ((openSession 100 none (.ok ⟨[], [.readError ⟨"connection reset during read"⟩]⟩)
        (.ok ())).isPanicked = true) := by
  exact ⟨rfl, rfl, rfl⟩

/-- Claim C6, behavior of the code at the failing inputs: when the
acknowledgment cannot be decoded — the stream yields no frame, the frame
is not decodable text, the text is not valid JSON, or the `ok` field is
missing — `open` indeed never reaches the Open state, but it panics
through one of its `unwrap` calls (fatal to the process) instead of
surfacing a typed error for the in-flight operation. -/
theorem open_panics_on_undecodable_ack :
    ((openSession 100 none (.ok ⟨[], []⟩) (.ok ())).isPanicked = true)
    ∧ ((openSession 100 none (.ok ⟨[], [.frame .invalidUtf8]⟩) (.ok ())).isPanicked = true)
    ∧ ((openSession 100 none (.ok ⟨[], [.frame (.text none)]⟩) (.ok ())).isPanicked = true)
    ∧ ((openSession 100 none (.ok ⟨[], [.frame (.text (some (.obj [])))]⟩)
        (.ok ())).isPanicked = true) := by
  exact ⟨rfl, rfl, rfl, rfl⟩

/-- Claim C7: when the transport connects, the open frame is sent, and
the acknowledgment frame is the JSON object `\x7b"ok": true\x7d`, `open`
succeeds, and the returned session (which owns the transport) is usable
for generate calls: a subsequent `generate` whose send succeeds completes
with `sentOk`. -/
theorem open_succeeds_on_ok_true_ack (maxLength : Nat) (model : Option Model)
    (ws : WsState) (rest : List InboundItem)
    (h : ws.inbound = .frame (.text (some (.obj [("ok", .bool true)]))) :: rest) :
    ((openSession maxLength model (.ok ws) (.ok ())).isOpened = true)
    ∧ ∀ p : GenerateParams,
        generateAfter (openSession maxLength model (.ok ws) (.ok ())) (.ok ()) p =
          some .sentOk := by
  have hw := writeJObj_ok (serializeOpenSessionRequest ⟨.openInferenceSession, maxLength, model⟩)
  constructor
  · simp [openSession, hw, h, Frame.toText, Json.get, List.lookup, valueEqStr,
      OpenResult.isOpened]
  · intro p
    simp [openSession, hw, h, Frame.toText, Json.get, List.lookup, valueEqStr,
      generateAfter, generate, writeJObj_ok]

/-- Witness for claim C7 at a concrete transport and parameter set. -/
theorem open_succeeds_on_ok_true_ack_witness :
    ((openSession 100 none (.ok ⟨[], [.frame (.text (some (.obj [("ok", .bool true)])))]⟩)
      (.ok ())).isOpened = true)
    ∧ generateAfter
        (openSession 100 none (.ok ⟨[], [.frame (.text (some (.obj [("ok", .bool true)])))]⟩)
          (.ok ())) (.ok ())
        ⟨none, some "Hello", none, none, none, none, none, some 20, none⟩ = some .sentOk := by
  have h := open_succeeds_on_ok_true_ack 100 none
    ⟨[], [.frame (.text (some (.obj [("ok", .bool true)])))]⟩ [] rfl
  exact ⟨h.1, h.2 ⟨none, some "Hello", none, none, none, none, none, some 20, none⟩⟩

/-- Claim C8: `generate` serializes the parameters into one Generate
message and writes that single outbound frame; it reads nothing (the
inbound side is untouched no matter what frames are pending), completes
with `Ok` exactly when the send succeeds, and returns the transport error
when the send fails. -/
theorem generate_writes_one_frame_reads_nothing (ws : WsState)
    (sr : Except TungsteniteError Unit) (p : GenerateParams) :
    ((generate ws sr p).2.inbound = ws.inbound)
    ∧ ((generate ws sr p).2.sent = ws.sent ++
        (match sr with
         | .ok _ => [jobjText (serializeGenerateRequest (generateRequestOfParams p))]
         | .error _ => []))
    ∧ ((generate ws sr p).1 = (match sr with
         | .ok _ => .sentOk
         | .error e => .sendFailed e)) := by
  cases sr <;> simp [generate, writeJObj_ok]

/-- Claim C10: serializing the `GenerateRequest` built inside `generate`
succeeds for every parameter set, including ones whose `temperature` or
`top_p` is NaN or infinite (serde_json writes non-finite floats as
`null`), so the serialization `unwrap` never panics and `generate` can
only fail at the transport send step. -/
theorem generate_serialization_always_succeeds (ws : WsState)
    (sr : Except TungsteniteError Unit) (p : GenerateParams) :
    (writeJObj (serializeGenerateRequest (generateRequestOfParams p)) =
      .ok (jobjText (serializeGenerateRequest (generateRequestOfParams p))))
    ∧ ((generate ws sr p).1.isPanicked = false)
    ∧ ((generate ws sr p).1 = (match sr with
         | .ok _ => .sentOk
         | .error e => .sendFailed e)) := by
  refine ⟨writeJObj_ok _, ?_, ?_⟩ <;>
    cases sr <;> simp [generate, writeJObj_ok, GenOutcome.isPanicked]

/-- Claim C2, counterexample: in the open-session request with no model,
the `model` key is present in the encoded object (with value `null`)
rather than omitted, because the structs carry no
`skip_serializing_if` attribute. -/
theorem open_request_absent_model_is_present :
    (serializeOpenSessionRequest ⟨.openInferenceSession, 100, none⟩).lookup "model" =
      some JVal.null := by
  rfl

/-- Claim C2 as amended: every optional field that was never set is
serialized as an explicit `null` value under its key — the key is present
in the encoded object, not omitted — in both outbound message shapes,
and set fields keep their encoded values. -/
theorem absent_optional_fields_encode_as_null (g : GenerateRequest) (o : OpenSessionRequest) :
    ((serializeOpenSessionRequest o).lookup "model" = some (jOfOptModel o.model))
    ∧ ((serializeGenerateRequest g).lookup "model" = some (jOfOptModel g.model))
    ∧ ((serializeGenerateRequest g).lookup "max_length" = some (jOfOptNat g.max_length))
    ∧ ((serializeGenerateRequest g).lookup "inputs" = some (jOfOptStr g.inputs))
    ∧ ((serializeGenerateRequest g).lookup "stop_sequence" = some (jOfOptStr g.stop_sequence))
    ∧ ((serializeGenerateRequest g).lookup "do_sample" = some (jOfOptBool g.do_sample))
    ∧ ((serializeGenerateRequest g).lookup "temperature" = some (jOfOptF32 g.temperature))
    ∧ ((serializeGenerateRequest g).lookup "top_k" = some (jOfOptNat g.top_k))
    ∧ ((serializeGenerateRequest g).lookup "top_p" = some (jOfOptF32 g.top_p))
    ∧ ((serializeGenerateRequest g).lookup "max_new_tokens" = some (jOfOptNat g.max_new_tokens))
    ∧ (jOfOptModel none = JVal.null) ∧ (jOfOptNat none = JVal.null)
    ∧ (jOfOptStr none = JVal.null) ∧ (jOfOptBool none = JVal.null)
    ∧ (jOfOptF32 none = JVal.null) := by
  refine ⟨?_, ?_, ?_, ?_, ?_, ?_, ?_, ?_, ?_, ?_, rfl, rfl, rfl, rfl, rfl⟩ <;> rfl

/-- Whether an optional `u32` field fits the `u32` range (true in the
Rust source by typing; explicit here because the embedding widens `u32`
to `Nat`). -/
def optU32 : Option Nat → Bool
  | none => true
  | some n => decide (n < 4294967296)

/-- Whether an optional float field is finite. -/
def optFinite : Option F32 → Bool
  | none => true
  | some v => v.isFiniteB

theorem decodeOptNat_round (o : Option Nat) (h : optU32 o = true) :
    decodeOptNat (some ((jOfOptNat o).onWire)) = .ok o := by
  cases o with
  | none => rfl
  | some n =>
    simp only [jOfOptNat, JVal.onWire, decodeOptNat]
    rw [if_pos]
    · simp
    · refine ⟨Rat.den_natCast n, by exact_mod_cast Nat.zero_le n, ?_⟩
      have hn : n < 4294967296 := by simpa [optU32] using h
      exact_mod_cast hn

theorem decodeOptStr_round (o : Option String) :
    decodeOptStr (some ((jOfOptStr o).onWire)) = .ok o := by
  cases o <;> rfl

theorem decodeOptBool_round (o : Option Bool) :
    decodeOptBool (some ((jOfOptBool o).onWire)) = .ok o := by
  cases o <;> rfl

theorem decodeOptF32_round (o : Option F32) (h : optFinite o = true) :
    decodeOptF32 (some ((jOfOptF32 o).onWire)) = .ok o := by
  cases o with
  | none => rfl
  | some v => cases v with
    | finite q => rfl
    | _ => simp [optFinite, F32.isFiniteB] at h

theorem decodeOptModel_round (o : Option Model) :
    decodeOptModel (some ((jOfOptModel o).onWire)) = .ok o := by
  cases o with
  | none => rfl
  | some m => cases m <;> rfl

theorem decodeReqType_round (t : RequestType) :
    decodeReqType (some ((JVal.str t.wire).onWire)) = .ok t := by
  cases t <;> rfl

/-- Claim C9, counterexample: encoding a parameter set whose `inputs`
was never set yields a message in which the `inputs` key carries an
explicit `null`, contradicting "absent fields never appear as explicit
nulls". -/
theorem generate_encoding_has_null_for_absent_field :
    (serializeGenerateRequest (generateRequestOfParams
      ⟨none, none, none, none, none, none, some 10, none, none⟩)).lookup "inputs" =
      some JVal.null := by
  rfl

/-- Claim C9 as amended: encoding a `GenerateRequest` to the wire
message and decoding it back yields the same fields with identical
values (for in-range integer fields and finite float values — a
non-finite float is written as `null` and cannot read back); absent
fields do appear as explicit nulls in the encoded message (see the
counterexample), and those nulls decode back to absent fields. -/
theorem generateRequest_roundtrip (r : GenerateRequest)
    (htemp : optFinite r.temperature = true) (htopp : optFinite r.top_p = true)
    (hmax : optU32 r.max_length = true) (htopk : optU32 r.top_k = true)
    (hnew : optU32 r.max_new_tokens = true) :
    decodeGenerateRequest (JObj.onWire (serializeGenerateRequest r)) = .ok r := by
  simp only [serializeGenerateRequest, JObj.onWire, List.map]
  rw [decodeGenerateRequest]
  rw [if_pos (by simp)]
  simp [List.lookup, decodeReqType_round r.request_type,
    decodeOptModel_round r.model, decodeOptNat_round r.max_length hmax,
    decodeOptStr_round r.inputs, decodeOptStr_round r.stop_sequence,
    decodeOptBool_round r.do_sample, decodeOptF32_round r.temperature htemp,
    decodeOptNat_round r.top_k htopk, decodeOptF32_round r.top_p htopp,
    decodeOptNat_round r.max_new_tokens hnew]

/-- Witness for claim C9 at a concrete request with a mix of set and
unset fields. -/
theorem generateRequest_roundtrip_witness :
    decodeGenerateRequest (JObj.onWire (serializeGenerateRequest
      ⟨.generate, some .bloomz, some 128, some "Hello", none, some true,
       some (.finite (7/10)), none, none, some 20⟩)) =
      .ok ⟨.generate, some .bloomz, some 128, some "Hello", none, some true,
       some (.finite (7/10)), none, none, some 20⟩ := by
  exact generateRequest_roundtrip
    ⟨.generate, some .bloomz, some 128, some "Hello", none, some true,
     some (.finite (7/10)), none, none, some 20⟩ rfl rfl (by decide) rfl (by decide)

end WebsocketPetals
